import Mathlib

/-!
Verification of the zeroclaw-nemu seller-agent provisioning layer.

The development shallowly embeds:
* the provisioning script (`provision.sh`): jq field extraction, the
  port-allocation loop, `sed`-style template rendering, the systemd unit,
  and the status PATCH body;
* the Docker entrypoint (`entrypoint.sh`): memory-backend selection and the
  conditional storage-provider block;
* the node agent (`server.mjs`): the WhatsApp verification endpoint and the
  buyer webhook.

Text is modelled as `List Char`; `sed "s/pat/rep/g"` is modelled by
`replaceAll`, a structurally recursive global leftmost non-overlapping
replacement that does not rescan the replacement text.
-/

namespace ZeroclawNemu

/-- The character `\x7b` (left curly brace). -/
def lbrace : Char := Char.ofNat 123

/-- The character `\x7d` (right curly brace). -/
def rbrace : Char := Char.ofNat 125

/-- `matchesAt pat s` is true when `pat` occurs at the very start of `s`. -/
def matchesAt : List Char → List Char → Bool
  | [], _ => true
  | _ :: _, [] => false
  | p :: ps, c :: cs => p == c && matchesAt ps cs

/-- Worker for `replaceAll`.  The `skip` counter consumes the remaining
characters of a pattern occurrence that has already been replaced, so the
recursion is structural in the text. -/
def sedGo (pat rep : List Char) : List Char → Nat → List Char
  | [], _ => []
  | _ :: rest, skip + 1 => sedGo pat rep rest skip
  | c :: rest, 0 =>
    if matchesAt pat (c :: rest) && !pat.isEmpty then
      rep ++ sedGo pat rep rest (pat.length - 1)
    else
      c :: sedGo pat rep rest 0

/-- `sed "s/pat/rep/g"` on whole text: global, leftmost, non-overlapping,
replacement text not rescanned. -/
def replaceAll (pat rep s : List Char) : List Char :=
  sedGo pat rep s 0

/-- One `sed` invocation with several `-e s/…/…/g` expressions, applied in
order, each seeing the previous expression's output. -/
def applySubsts (subs : List (List Char × List Char)) (s : List Char) : List Char :=
  subs.foldl (fun acc pr => replaceAll pr.1 pr.2 acc) s

/-- `occursIn pat s` is true when `pat` occurs somewhere in `s`. -/
def occursIn (pat : List Char) : List Char → Bool
  | [] => false
  | c :: rest => matchesAt pat (c :: rest) || occursIn pat rest

/-- A placeholder token `\x7b\x7bNAME\x7d\x7d` for an uppercase-snake-case name. -/
def ph (name : String) : List Char :=
  ("\x7b\x7b" ++ name ++ "\x7d\x7d").data

/-- A character allowed in a placeholder name: uppercase letter or underscore. -/
def isUpperSnakeChar (c : Char) : Bool :=
  c.isUpper || c == '_'

/-- Does a placeholder-shaped token (double curly braces around a nonempty
uppercase-snake-case name) start at the head of the text? -/
def placeholderAt : List Char → Bool
  | a :: b :: rest =>
    a == lbrace && b == lbrace &&
      (let name := rest.takeWhile isUpperSnakeChar
       !name.isEmpty && matchesAt [rbrace, rbrace] (rest.drop name.length))
  | _ => false

/-- Does the text contain a placeholder-shaped token anywhere? -/
def hasPlaceholderShaped : List Char → Bool
  | [] => false
  | s@(_ :: rest) => placeholderAt s || hasPlaceholderShaped rest

/-- A pattern that occurs nowhere in the text is not replaced: the text
passes through `replaceAll` unchanged. -/
theorem replaceAll_of_not_occursIn {pat : List Char} (rep : List Char) :
    ∀ {s : List Char}, occursIn pat s = false → replaceAll pat rep s = s := by
  intro s
  induction s with
  | nil => intro _; rfl
  | cons c rest ih =>
    intro h
    simp only [occursIn, Bool.or_eq_false_iff] at h
    simp only [replaceAll, sedGo, h.1, Bool.false_and, if_neg (Bool.false_ne_true)]
    have := ih h.2
    simpa [replaceAll] using this

/- ### Port allocation (`provision.sh` step 2)

```
GATEWAY_PORT=$GATEWAY_PORT_START
while lsof -Pi ":$GATEWAY_PORT" -sTCP:LISTEN -t >/dev/null 2>&1; do
  GATEWAY_PORT=$((GATEWAY_PORT + 1))
done
```

The host's occupied port space is modelled as the list `busy`.  The loop is
embedded with a fuel counter so that it stays structurally recursive and
kernel-evaluable; `allocGo_spec` proves that `busy.length` fuel always
suffices to reach the first free port, which is exactly the fixpoint of the
unbounded `while` loop above. -/

/-- Fueled version of the sequential probe loop. -/
def allocGo (busy : List Nat) : Nat → Nat → Nat
  | 0, p => p
  | fuel + 1, p => if p ∈ busy then allocGo busy fuel (p + 1) else p

/-- The port allocation loop of `provision.sh`: probe sequentially from
`base`, return the first port with no listener. -/
def allocatePort (busy : List Nat) (base : Nat) : Nat :=
  allocGo busy busy.length base

theorem allocGo_spec (busy : List Nat) :
    ∀ fuel p, (busy.toFinset.filter (fun q => p ≤ q)).card ≤ fuel →
      allocGo busy fuel p ∉ busy ∧ p ≤ allocGo busy fuel p ∧
        ∀ q, p ≤ q → q ∉ busy → allocGo busy fuel p ≤ q := by
  intro fuel
  induction fuel with
  | zero =>
    intro p hcard
    have hp : p ∉ busy := by
      intro hmem
      have : p ∈ busy.toFinset.filter (fun q => p ≤ q) := by
        simp [List.mem_toFinset, hmem]
      have hpos : 0 < (busy.toFinset.filter (fun q => p ≤ q)).card :=
        Finset.card_pos.mpr ⟨p, this⟩
      omega
    exact ⟨hp, Nat.le_refl p, fun q hq _ => hq⟩
  | succ fuel ih =>
    intro p hcard
    by_cases hp : p ∈ busy
    · have hstep : allocGo busy (fuel + 1) p = allocGo busy fuel (p + 1) := by
        simp [allocGo, hp]
      have hsub : busy.toFinset.filter (fun q => p + 1 ≤ q) ⊆
          (busy.toFinset.filter (fun q => p ≤ q)).erase p := by
        intro q hq
        simp only [Finset.mem_filter, List.mem_toFinset] at hq
        simp only [Finset.mem_erase, Finset.mem_filter, List.mem_toFinset]
        exact ⟨by omega, hq.1, by omega⟩
      have hpmem : p ∈ busy.toFinset.filter (fun q => p ≤ q) := by
        simp [List.mem_toFinset, hp]
      have hcard' : (busy.toFinset.filter (fun q => p + 1 ≤ q)).card ≤ fuel := by
        have h1 := Finset.card_le_card hsub
        have h2 := Finset.card_erase_of_mem hpmem
        have h3 : 0 < (busy.toFinset.filter (fun q => p ≤ q)).card :=
          Finset.card_pos.mpr ⟨p, hpmem⟩
        omega
      obtain ⟨hnot, hle, hmin⟩ := ih (p + 1) hcard'
      refine ⟨by rwa [hstep], by omega, ?_⟩
      intro q hq hqfree
      rw [hstep]
      have hne : q ≠ p := fun h => hqfree (h ▸ hp)
      exact hmin q (by omega) hqfree
    · simp only [allocGo, if_neg hp]
      exact ⟨hp, Nat.le_refl p, fun q hq _ => hq⟩

/-- The allocator returns the least port at or above the base with no
existing listener. -/
theorem allocatePort_spec (busy : List Nat) (base : Nat) :
    allocatePort busy base ∉ busy ∧ base ≤ allocatePort busy base ∧
      ∀ q, base ≤ q → q ∉ busy → allocatePort busy base ≤ q := by
  have hcard : (busy.toFinset.filter (fun q => base ≤ q)).card ≤ busy.length :=
    le_trans (Finset.card_filter_le _ _) busy.toFinset_card_le
  exact allocGo_spec busy busy.length base hcard

/- ### Seller metadata extraction (`provision.sh` step 1)

The registry returns a JSON object; a field that is absent (or null) is
modelled as `none`.  `jq -r ".field"` prints the literal string `"null"`
for an absent field; `jq -r ".field // \x22\x22"` prints the empty string. -/

/-- `jq -r ".field"`: an absent or null field becomes the string `"null"`. -/
def jqField (o : Option String) : String := o.getD "null"

/-- `jq -r ".field // \x22\x22"`: an absent or null field becomes `""`. -/
def jqFieldOrEmpty (o : Option String) : String := o.getD ""

/-- The JSON object returned by `GET $NEMU_API_BASE/agent/seller/$SELLER_ID`. -/
structure RegistryResponse where
  storeName : Option String := none
  storeSlug : Option String := none
  category : Option String := none
  description : Option String := none
  inviteCode : Option String := none
  isFoundingSeller : Option String := none
  whatsappPhone : Option String := none
  agentApiKey : Option String := none
  payspongAgentId : Option String := none
  payspongeApiKey : Option String := none
  walletAddress : Option String := none
deriving DecidableEq

/-- The shell variables extracted from the registry response
(`provision.sh` lines 45–56). -/
structure SellerVals where
  sellerName : String
  storeName : String
  storeSlug : String
  storeCategory : String
  storeDescription : String
  inviteCode : String
  isFoundingSeller : String
  sellerPhone : String
  agentApiKey : String
  payspongeAgentId : String
  payspongeApiKey : String
  walletAddress : String
deriving DecidableEq

/-- The jq extraction block of `provision.sh`: note `SELLER_NAME` and
`STORE_NAME` are both read from `.storeName`, required fields use plain
`jq -r` (so an absent field yields the string `"null"`), and optional
fields use `// ""`. -/
def extractSeller (r : RegistryResponse) : SellerVals where
  sellerName := jqField r.storeName
  storeName := jqField r.storeName
  storeSlug := jqField r.storeSlug
  storeCategory := jqField r.category
  storeDescription := jqField r.description
  inviteCode := jqField r.inviteCode
  isFoundingSeller := jqField r.isFoundingSeller
  sellerPhone := jqFieldOrEmpty r.whatsappPhone
  agentApiKey := jqField r.agentApiKey
  payspongeAgentId := jqFieldOrEmpty r.payspongAgentId
  payspongeApiKey := jqFieldOrEmpty r.payspongeApiKey
  walletAddress := jqFieldOrEmpty r.walletAddress

/- ### Template rendering (`provision.sh` steps 3–4) -/

/-- The placeholder names substituted into `SOUL.md`. -/
def soulPlaceholderNames : List String :=
  ["SELLER_NAME", "STORE_NAME", "STORE_SLUG", "STORE_CATEGORY",
   "STORE_DESCRIPTION", "INVITE_CODE", "IS_FOUNDING_SELLER",
   "WALLET_ADDRESS", "STORE_LINK"]

/-- The `sed` expression list rendering `SOUL.md` (lines 78–88). -/
def soulSubsts (v : SellerVals) : List (List Char × List Char) :=
  [(ph "SELLER_NAME", v.sellerName.data),
   (ph "STORE_NAME", v.storeName.data),
   (ph "STORE_SLUG", v.storeSlug.data),
   (ph "STORE_CATEGORY", v.storeCategory.data),
   (ph "STORE_DESCRIPTION", v.storeDescription.data),
   (ph "INVITE_CODE", v.inviteCode.data),
   (ph "IS_FOUNDING_SELLER", v.isFoundingSeller.data),
   (ph "WALLET_ADDRESS", v.walletAddress.data),
   (ph "STORE_LINK", ("https://nemu-ai.com/toko/" ++ v.storeSlug).data)]

/-- Render `SOUL.md` with seller data. -/
def renderSoul (v : SellerVals) (tpl : List Char) : List Char :=
  applySubsts (soulSubsts v) tpl

/-- Render `HEARTBEAT.md`: two successive in-place `sed` edits
(lines 92–93). -/
def renderHeartbeat (v : SellerVals) (tpl : List Char) : List Char :=
  applySubsts [(ph "SELLER_NAME", v.sellerName.data),
               (ph "STORE_NAME", v.storeName.data)] tpl

/-- Process-wide configuration read from the environment at the top of
`provision.sh`. -/
structure Env where
  zeroclawBin : String := "zeroclaw"
  agentsBaseDir : String := "/opt/nemu/agents"
  gatewayPortStart : Nat := 4000
  nemuApiBase : String := "https://nemu-ai.com/api"
  nemuProvisionKey : String := ""
  minimaxApiKey : String := ""
  neonDatabaseUrl : String := ""
  waAccessToken : String := ""
  waPhoneNumberId : String := ""
  hostname : String := ""
deriving DecidableEq

/-- The `sed` expression list generating `config.toml` (lines 98–112).
`waVerifyToken` is the value of `$(openssl rand -hex 16)`, freshly drawn
on every run. -/
def configSubsts (env : Env) (sellerId : String) (port : Nat) (v : SellerVals)
    (waVerifyToken : String) : List (List Char × List Char) :=
  [(ph "MINIMAX_API_KEY", env.minimaxApiKey.data),
   (ph "NEON_DATABASE_URL", env.neonDatabaseUrl.data),
   (ph "SELLER_ID", sellerId.data),
   (ph "GATEWAY_PORT", (toString port).data),
   (ph "WA_ACCESS_TOKEN", env.waAccessToken.data),
   (ph "WA_PHONE_NUMBER_ID", env.waPhoneNumberId.data),
   (ph "WA_VERIFY_TOKEN", waVerifyToken.data),
   (ph "SELLER_PHONE", v.sellerPhone.data),
   (ph "NEMU_AGENT_API_KEY", v.agentApiKey.data),
   (ph "PAYSPONGE_API_KEY", v.payspongeApiKey.data),
   (ph "PAYSPONGE_AGENT_ID", v.payspongeAgentId.data),
   (ph "WALLET_ADDRESS", v.walletAddress.data),
   (ph "AGENT_CAN_UPDATE_STOCK", "false".data)]

/-- Render `config.toml` from `config.toml.template`. -/
def renderConfig (env : Env) (sellerId : String) (port : Nat) (v : SellerVals)
    (waVerifyToken : String) (tpl : List Char) : List Char :=
  applySubsts (configSubsts env sellerId port v waVerifyToken) tpl

/- ### Service registration (`provision.sh` step 6) -/

/-- `SERVICE_NAME="nemu-agent-$SELLER_ID"`. -/
def serviceName (sellerId : String) : String :=
  "nemu-agent-" ++ sellerId

/-- The path of the systemd unit file for a service name. -/
def unitPath (name : String) : String :=
  "/etc/systemd/system/" ++ name ++ ".service"

/-- The unit file written to `/etc/systemd/system/$SERVICE_NAME.service`
(the heredoc of lines 125–144). -/
def unitFile (env : Env) (sellerId : String) (v : SellerVals)
    (workspaceDir : String) : String :=
  "[Unit]\nDescription=Nemu AI Seller Agent — " ++ v.storeName ++ " (" ++
    sellerId ++ ")\nAfter=network.target\n\n[Service]\nType=simple\nUser=nemu\nWorkingDirectory=" ++
    workspaceDir ++ "\nEnvironment=ZEROCLAW_CONFIG=" ++ workspaceDir ++
    "/config.toml\nEnvironment=ZEROCLAW_WORKSPACE=" ++ workspaceDir ++
    "/workspace\nExecStart=" ++ env.zeroclawBin ++
    " daemon\nRestart=always\nRestartSec=5\nStandardOutput=journal\nStandardError=journal\n\n[Install]\nWantedBy=multi-user.target\n"

/-- The host's service-manager state: one unit file per service name.
Writing a unit file at `unitPath name` binds `name` to its content; a
second write to the same name overwrites the same file. -/
def declareService (st : String → Option String) (name content : String) :
    String → Option String :=
  fun m => if m = name then some content else st m

/- ### The provisioning pipeline -/

/-- The template files read by the provisioner
(`$NEMU_DIR/workspace/SOUL.md`, `$NEMU_DIR/workspace/HEARTBEAT.md`,
`$NEMU_DIR/config.toml.template`). -/
structure Templates where
  soul : List Char
  heartbeat : List Char
  config : List Char
deriving DecidableEq

/-- The per-seller directory tree after a run: rendered artifacts plus the
skill files copied verbatim. -/
structure AgentWorkspace where
  skills : List (String × String)
  soul : List Char
  heartbeat : List Char
  configToml : List Char
deriving DecidableEq

/-- The body of the status PATCH sent to
`$NEMU_API_BASE/agent/seller/$SELLER_ID/status` (lines 156–160). -/
structure StatusBody where
  agentStatus : String
  agentPort : Nat
  agentServerId : String
deriving DecidableEq

/-- Modelled from the spec: `config.toml.template` is listed in the README
and consumed by `provision.sh` but is not present in the repository, so the
structured content of the rendered runtime configuration is modelled from
spec §3/§6 (gateway port, workspace path, seller identity, WhatsApp verify
token), populated with the values the provisioner substitutes. -/
structure RenderedConfigDoc where
  sellerId : String
  workspaceDir : String
  gatewayPort : Nat
  waVerifyToken : String
deriving DecidableEq

/-- Host state touched by provisioning: per-seller workspaces, the systemd
unit files, and the occupied TCP port space. -/
structure SystemState where
  workspaces : String → Option AgentWorkspace
  services : String → Option String
  busyPorts : List Nat

/-- Everything a single run computes. -/
structure ProvisionOutcome where
  port : Nat
  workspaceDir : String
  service : String
  workspace : AgentWorkspace
  configDoc : RenderedConfigDoc
  statusBody : StatusBody

/-- One run of `provision.sh` for `sellerId`, given the parsed registry
response, the skill files, the freshly drawn `WA_VERIFY_TOKEN`, and the
current host state.  The run extracts the seller fields, allocates a port,
materializes the workspace (skills copied verbatim, `SOUL.md` and
`HEARTBEAT.md` rendered, `config.toml` rendered), writes the systemd unit,
and produces the status PATCH body. -/
def provision (env : Env) (tpls : Templates) (skills : List (String × String))
    (sellerId : String) (resp : RegistryResponse) (waVerifyToken : String)
    (st : SystemState) : SystemState × ProvisionOutcome :=
  let v := extractSeller resp
  let port := allocatePort st.busyPorts env.gatewayPortStart
  let workspaceDir := env.agentsBaseDir ++ "/" ++ sellerId
  let ws : AgentWorkspace :=
    { skills := skills
      soul := renderSoul v tpls.soul
      heartbeat := renderHeartbeat v tpls.heartbeat
      configToml := renderConfig env sellerId port v waVerifyToken tpls.config }
  let name := serviceName sellerId
  let unit := unitFile env sellerId v workspaceDir
  let st' : SystemState :=
    { workspaces := fun k => if k = sellerId then some ws else st.workspaces k
      services := declareService st.services name unit
      busyPorts := st.busyPorts }
  (st',
   { port := port
     workspaceDir := workspaceDir
     service := name
     workspace := ws
     configDoc :=
       { sellerId := sellerId
         workspaceDir := workspaceDir
         gatewayPort := port
         waVerifyToken := waVerifyToken }
     statusBody :=
       { agentStatus := "active"
         agentPort := port
         agentServerId := env.hostname } })

/- ### Docker entrypoint (`nemu/docker/entrypoint.sh`)

Config generation from environment variables; unset and empty variables are
indistinguishable to the `${VAR:+...}`/`${VAR:-...}` expansions used, so
variables are modelled as `String` with `""` for unset. -/

/-- `GATEWAY_PORT="${PORT:-3000}"`. -/
def portOrDefault (port : String) : String :=
  if port = "" then "3000" else port

/-- `MEMORY_BACKEND="${NEON_DATABASE_URL:+postgres}"`: empty unless the
Neon URL is non-empty. -/
def memoryBackendStep1 (neonUrl : String) : String :=
  if neonUrl = "" then "" else "postgres"

/-- `MEMORY_BACKEND="${MEMORY_BACKEND:-sqlite}"`: default the selector to
`sqlite`. -/
def memoryBackend (neonUrl : String) : String :=
  if memoryBackendStep1 neonUrl = "" then "sqlite" else memoryBackendStep1 neonUrl

/-- The base `config.toml` heredoc written by the entrypoint
(lines 115–146 of the Docker sources). -/
def entrypointBaseConfig (minimaxApiKey workspace gatewayPort neonUrl : String) :
    String :=
  "api_key = \"" ++ minimaxApiKey ++
    "\"\ndefault_provider = \"minimax\"\ndefault_model = \"MiniMax-Text-01\"\ndefault_temperature = 0.7\n\nworkspace_dir = \"" ++
    workspace ++ "\"\n\n[gateway]\nport = " ++ gatewayPort ++
    "\nhost = \"[::]\"\nallow_public_bind = true\nrequire_pairing = false\n\n[memory]\nbackend = \"" ++
    memoryBackend neonUrl ++
    "\"\nauto_save = true\n\n[heartbeat]\nenabled = true\ninterval_minutes = 30\n\n[secrets]\nencrypt = false\n\n[autonomy]\nlevel = \"supervised\"\nworkspace_only = true\n\n[runtime]\nkind = \"native\"\n"

/-- The storage-provider block appended when the Neon URL is set
(lines 150–158). -/
def storageBlock (neonUrl : String) : String :=
  "\n[storage.provider.config]\nprovider = \"postgres\"\ndb_url = \"" ++ neonUrl ++
    "\"\nschema = \"zeroclaw_nemu\"\ntable = \"memories\"\nconnect_timeout_secs = 15\n"

/-- `if [ -n "${NEON_DATABASE_URL:-}" ]; then cat >> "$CONFIG" ... fi`:
the appended block, when the guard fires. -/
def storageAppend (neonUrl : String) : Option String :=
  if neonUrl ≠ "" then some (storageBlock neonUrl) else none

/-- The full `config.toml` produced by the entrypoint. -/
def entrypointConfig (minimaxApiKey workspace gatewayPort neonUrl : String) :
    String :=
  entrypointBaseConfig minimaxApiKey workspace gatewayPort neonUrl ++
    (storageAppend neonUrl).getD ""

/- ### The node agent (`nemu/node-agent/server.mjs`) -/

/-- An express response as the handlers produce it: a status code and the
body text (for JSON bodies, the field relevant to the claims). -/
structure HttpResponse where
  status : Nat
  body : String
deriving DecidableEq

/-- `GET /whatsapp` (server.mjs):

```
const mode = req.query["hub.mode"];
const token = req.query["hub.verify_token"];
const challenge = req.query["hub.challenge"];
if (mode === "subscribe") return res.send(challenge);
res.sendStatus(403);
```

`verifyToken` is bound but never read; an absent `challenge` is sent as an
empty body. -/
def whatsappVerifyHandler (mode verifyToken challenge : Option String) :
    HttpResponse :=
  if mode = some "subscribe" then ⟨200, challenge.getD ""⟩
  else ⟨403, "Forbidden"⟩

/-- JavaScript truthiness of an optional string value: present and
non-empty. -/
def truthy (o : Option String) : Bool :=
  match o with
  | some s => !s.isEmpty
  | none => false

/-- `const userMsg = text || message || "";` -/
def messageOf (text message : Option String) : String :=
  if truthy text then text.getD ""
  else if truthy message then message.getD ""
  else ""

/-- The JSON body of a `POST /webhook` request.  The JSON keys `from` and
`name` are modelled as `sender` and `senderName` (`from` is a Lean
keyword). -/
structure WebhookRequest where
  sender : Option String := none
  senderName : Option String := none
  text : Option String := none
  message : Option String := none
deriving DecidableEq

/-- `POST /webhook` (server.mjs lines 140–158).  The handler result pairs
the response with whether `askMinimax` was invoked; `llmOutcome` is the
outcome of that call when it is made (`.error` models a thrown
exception). -/
def webhookHandler (req : WebhookRequest) (llmOutcome : Except String String) :
    HttpResponse × Bool :=
  let userMsg := messageOf req.text req.message
  if userMsg.isEmpty then (⟨400, "No message text provided"⟩, false)
  else
    match llmOutcome with
    | .ok reply => (⟨200, reply⟩, true)
    | .error _ => (⟨500, "Agent error"⟩, true)

/- ### Concrete test fixtures -/

/-- Modelled from the spec: `config.toml.template` is consumed by
`provision.sh` and listed in the README but is not present in the
repository.  Its text is modelled from spec §6 (required keys: API
credentials, model name, workspace path, gateway port/host, memory backend,
heartbeat enable/interval, autonomy level, runtime kind) with the
placeholder set of the provisioner's substitution list. -/
def configTomlTemplate : List Char :=
  ("api_key = \x22\x7b\x7bMINIMAX_API_KEY\x7d\x7d\x22\n" ++
   "default_model = \x22MiniMax-Text-01\x22\n\n" ++
   "workspace_dir = \x22/opt/nemu/agents/\x7b\x7bSELLER_ID\x7d\x7d/workspace\x22\n\n" ++
   "[gateway]\nport = \x7b\x7bGATEWAY_PORT\x7d\x7d\nhost = \x220.0.0.0\x22\n\n" ++
   "[memory]\nbackend = \x22sqlite\x22\n\n" ++
   "[heartbeat]\nenabled = true\ninterval_minutes = 30\n\n" ++
   "[autonomy]\nlevel = \x22supervised\x22\n\n" ++
   "[runtime]\nkind = \x22native\x22\n\n" ++
   "[whatsapp]\naccess_token = \x22\x7b\x7bWA_ACCESS_TOKEN\x7d\x7d\x22\n" ++
   "phone_number_id = \x22\x7b\x7bWA_PHONE_NUMBER_ID\x7d\x7d\x22\n" ++
   "verify_token = \x22\x7b\x7bWA_VERIFY_TOKEN\x7d\x7d\x22\n" ++
   "seller_phone = \x22\x7b\x7bSELLER_PHONE\x7d\x7d\x22\n\n" ++
   "[nemu]\nseller_id = \x22\x7b\x7bSELLER_ID\x7d\x7d\x22\n" ++
   "api_key = \x22\x7b\x7bNEMU_AGENT_API_KEY\x7d\x7d\x22\n" ++
   "database_url = \x22\x7b\x7bNEON_DATABASE_URL\x7d\x7d\x22\n" ++
   "can_update_stock = \x7b\x7bAGENT_CAN_UPDATE_STOCK\x7d\x7d\n\n" ++
   "[paysponge]\napi_key = \x22\x7b\x7bPAYSPONGE_API_KEY\x7d\x7d\x22\n" ++
   "agent_id = \x22\x7b\x7bPAYSPONGE_AGENT_ID\x7d\x7d\x22\n" ++
   "wallet = \x22\x7b\x7bWALLET_ADDRESS\x7d\x7d\x22\n").data

/-- A small concrete persona template exercising the `SOUL.md`
placeholders. -/
def soulTplC : List Char :=
  ("Toko: \x7b\x7bSTORE_NAME\x7d\x7d (\x7b\x7bSTORE_CATEGORY\x7d\x7d)\n" ++
   "Owner: \x7b\x7bSELLER_NAME\x7d\x7d\nLink: \x7b\x7bSTORE_LINK\x7d\x7d\n" ++
   "Founding: \x7b\x7bIS_FOUNDING_SELLER\x7d\x7d\n").data

/-- A small concrete heartbeat template. -/
def hbTplC : List Char :=
  ("Halo \x7b\x7bSELLER_NAME\x7d\x7d dari \x7b\x7bSTORE_NAME\x7d\x7d\n").data

/-- Concrete templates fixture. -/
def tplsC : Templates :=
  { soul := soulTplC, heartbeat := hbTplC, config := configTomlTemplate }

/-- Concrete environment fixture. -/
def envC : Env :=
  { zeroclawBin := "zeroclaw"
    agentsBaseDir := "/opt/nemu/agents"
    gatewayPortStart := 4000
    nemuApiBase := "https://nemu-ai.com/api"
    nemuProvisionKey := "pk-1"
    minimaxApiKey := "mk-1"
    neonDatabaseUrl := ""
    waAccessToken := "wat-1"
    waPhoneNumberId := "wpn-1"
    hostname := "srv-1" }

/-- Concrete skill files fixture (copied verbatim by the provisioner). -/
def skillsC : List (String × String) :=
  [("skills/nemu-catalog/SKILL.md", "catalog skill"),
   ("skills/nemu-orders/SKILL.md", "orders skill")]

/-- Concrete registry response fixture (all required fields present). -/
def respC : RegistryResponse :=
  { storeName := some "Toko Kita"
    storeSlug := some "toko-kita"
    category := some "Fashion"
    description := some "Toko online"
    inviteCode := some "INV1"
    isFoundingSeller := some "true"
    whatsappPhone := some "+62811"
    agentApiKey := some "nak-1"
    payspongAgentId := none
    payspongeApiKey := none
    walletAddress := some "0xabc" }

/-- A registry response whose required `storeSlug` field is missing. -/
def respNoSlug : RegistryResponse :=
  { storeName := some "Toko Kita"
    category := some "Fashion"
    description := some "Toko online"
    inviteCode := some "INV1"
    isFoundingSeller := some "true"
    agentApiKey := some "nak-1" }

/-- The pristine host: no workspaces, no services, no bound ports. -/
def st0 : SystemState :=
  { workspaces := fun _ => none, services := fun _ => none, busyPorts := [] }

/-- Seller values fixture with every field `"x"`. -/
def vX : SellerVals :=
  ⟨"x", "x", "x", "x", "x", "x", "x", "x", "x", "x", "x", "x"⟩

/-- Running the pipeline a second time on the state left by the first run,
with the same profile, environment and templates. -/
def provisionTwice (env : Env) (tpls : Templates)
    (skills : List (String × String)) (sellerId : String)
    (resp : RegistryResponse) (tok1 tok2 : String) (st : SystemState) :
    SystemState × ProvisionOutcome :=
  provision env tpls skills sellerId resp tok2
    (provision env tpls skills sellerId resp tok1 st).1

/- ### Claims C4 and C5: port allocation -/

/-- C4 counterexample: with base port 4000 bound and `maxAttempts = 1`, the
claim asserts the allocator returns a free port in `[4000, 4001)` or fails
with `ExhaustedError`; the loop instead terminates with port 4001, outside
the allowed range, and has no failure outcome at all. -/
theorem allocator_leaves_claimed_range :
    allocatePort [4000] 4000 = 4001 ∧
      ¬ (allocatePort [4000] 4000 < 4000 + 1) := by
  decide

/-- C4 (amended): the allocation loop has no `maxAttempts` bound and no
`ExhaustedError` outcome: for every `n`, with all of `[base, base + n)`
bound it still terminates and returns `base + n`, the first free port,
however large `n` is. -/
theorem allocator_unbounded_total (base n : Nat) :
    allocatePort (List.range' base n) base = base + n := by
  obtain ⟨hfree, hge, hmin⟩ := allocatePort_spec (List.range' base n) base
  have hmem : ∀ x, x ∈ List.range' base n ↔ base ≤ x ∧ x < base + n := by
    intro x
    exact List.mem_range'_1
  have h1 : base + n ∉ List.range' base n := by
    rw [hmem]
    omega
  have h2 := hmin (base + n) (by omega) h1
  have h3 : ¬ allocatePort (List.range' base n) base < base + n := by
    intro hlt
    exact hfree ((hmem _).mpr ⟨hge, hlt⟩)
  omega

/-- C5: the allocator returns the smallest port at or above the base with
no existing listener; in particular with 4000 bound and 4001 free it
returns 4001. -/
theorem allocator_returns_first_free (busy : List Nat) (base : Nat) :
    (allocatePort busy base ∉ busy ∧ base ≤ allocatePort busy base ∧
      ∀ q, base ≤ q → q ∉ busy → allocatePort busy base ≤ q) ∧
    allocatePort [4000] 4000 = 4001 :=
  ⟨allocatePort_spec busy base, by decide⟩

/-- C5 witness: the allocator's minimality applied at the port-contention
scenario of the spec. -/
theorem allocator_returns_first_free_witness :
    allocatePort [4000] 4000 ≤ 4001 ∧ allocatePort [4000] 4000 = 4001 :=
  ⟨(allocator_returns_first_free [4000] 4000).1.2.2 4001 (by decide) (by decide),
   (allocator_returns_first_free [4000] 4000).2⟩

/- ### Claim C1: idempotence of the full pipeline -/

set_option maxRecDepth 4000 in
/-- C1 counterexample: running the pipeline twice in succession for the
same seller, environment, templates and host state does not produce a
byte-for-byte identical `AgentWorkspace`: `WA_VERIFY_TOKEN` is drawn from
`openssl rand -hex 16` on every run, so the second run's rendered
`config.toml` differs from the first. -/
theorem provision_rerun_not_byte_identical :
    (provisionTwice envC tplsC skillsC "s-42" respC "aaaa" "bbbb" st0).2.workspace ≠
      (provision envC tplsC skillsC "s-42" respC "aaaa" st0).2.workspace := by
  decide

/-- C1 (amended): re-running the pipeline for the same `SellerProfile` and
environment reproduces the persona, heartbeat and skill artifacts
byte-for-byte and redeclares exactly the same single managed service under
the deterministic name, but the rendered runtime configuration embeds the
freshly generated `WA_VERIFY_TOKEN`, so the workspace is byte-identical
only when the two runs happen to draw the same token. -/
theorem provision_rerun_converges_modulo_verify_token (env : Env)
    (tpls : Templates) (skills : List (String × String)) (sid : String)
    (resp : RegistryResponse) (tok1 tok2 : String) (st : SystemState) :
    (provisionTwice env tpls skills sid resp tok1 tok2 st).2.workspace.skills =
      (provision env tpls skills sid resp tok1 st).2.workspace.skills ∧
    (provisionTwice env tpls skills sid resp tok1 tok2 st).2.workspace.soul =
      (provision env tpls skills sid resp tok1 st).2.workspace.soul ∧
    (provisionTwice env tpls skills sid resp tok1 tok2 st).2.workspace.heartbeat =
      (provision env tpls skills sid resp tok1 st).2.workspace.heartbeat ∧
    (tok1 = tok2 →
      (provisionTwice env tpls skills sid resp tok1 tok2 st).2.workspace =
        (provision env tpls skills sid resp tok1 st).2.workspace) ∧
    (provisionTwice env tpls skills sid resp tok1 tok2 st).1.services =
      (provision env tpls skills sid resp tok1 st).1.services ∧
    (provisionTwice env tpls skills sid resp tok1 tok2 st).1.services
        (serviceName sid) =
      some (unitFile env sid (extractSeller resp)
        (env.agentsBaseDir ++ "/" ++ sid)) := by
  refine ⟨rfl, rfl, rfl, ?_, ?_, ?_⟩
  · intro h
    subst h
    rfl
  · funext m
    by_cases h : m = serviceName sid <;>
      simp [provisionTwice, provision, declareService, h]
  · simp [provisionTwice, provision, declareService]

/-- C1 witness: when the two runs draw the same verify token, the
workspaces coincide, and the single service under the deterministic name
survives the rerun. -/
theorem provision_rerun_converges_witness :
    (provisionTwice envC tplsC skillsC "s-42" respC "cccc" "cccc" st0).2.workspace =
      (provision envC tplsC skillsC "s-42" respC "cccc" st0).2.workspace :=
  (provision_rerun_converges_modulo_verify_token envC tplsC skillsC "s-42"
    respC "cccc" "cccc" st0).2.2.2.1 rfl

/- ### Claim C2: renderer output validation -/

/-- A template consisting of a placeholder the provisioner never
substitutes (`ACTIVE_HOURS` appears in a variant of the persona template
but not in the `sed` expression list). -/
def foreignTpl : List Char := ph "ACTIVE_HOURS"

/-- C2 counterexample: with a mapping that does not cover `ACTIVE_HOURS`,
rendering does not fail with `UnresolvedPlaceholderError`; the renderer is
a total chain of `sed` substitutions that emits the output with the
placeholder-shaped token still in it. -/
theorem renderer_emits_unresolved_placeholder :
    renderSoul vX foreignTpl = foreignTpl ∧
      hasPlaceholderShaped (renderSoul vX foreignTpl) = true := by
  decide

/-- C2 (amended): the renderer performs plain unvalidated substitution: it
has no failure outcome, and a template containing none of the nine
substituted placeholder names passes through entirely unchanged —
unresolved placeholders survive verbatim in the output instead of raising
`UnresolvedPlaceholderError`. -/
theorem renderSoul_no_validation (v : SellerVals) (tpl : List Char)
    (h : ∀ name ∈ soulPlaceholderNames, occursIn (ph name) tpl = false) :
    renderSoul v tpl = tpl := by
  have h1 := h "SELLER_NAME" (by simp [soulPlaceholderNames])
  have h2 := h "STORE_NAME" (by simp [soulPlaceholderNames])
  have h3 := h "STORE_SLUG" (by simp [soulPlaceholderNames])
  have h4 := h "STORE_CATEGORY" (by simp [soulPlaceholderNames])
  have h5 := h "STORE_DESCRIPTION" (by simp [soulPlaceholderNames])
  have h6 := h "INVITE_CODE" (by simp [soulPlaceholderNames])
  have h7 := h "IS_FOUNDING_SELLER" (by simp [soulPlaceholderNames])
  have h8 := h "WALLET_ADDRESS" (by simp [soulPlaceholderNames])
  have h9 := h "STORE_LINK" (by simp [soulPlaceholderNames])
  simp only [renderSoul, soulSubsts, applySubsts, List.foldl]
  rw [replaceAll_of_not_occursIn _ h1, replaceAll_of_not_occursIn _ h2,
    replaceAll_of_not_occursIn _ h3, replaceAll_of_not_occursIn _ h4,
    replaceAll_of_not_occursIn _ h5, replaceAll_of_not_occursIn _ h6,
    replaceAll_of_not_occursIn _ h7, replaceAll_of_not_occursIn _ h8,
    replaceAll_of_not_occursIn _ h9]

/-- C2 witness: the pass-through theorem applied to the `ACTIVE_HOURS`
template. -/
theorem renderSoul_no_validation_witness :
    renderSoul vX foreignTpl = foreignTpl :=
  renderSoul_no_validation vX foreignTpl (by decide)

/- ### Claim C3: fail-fast on missing required metadata -/

/-- C3 counterexample: for a registry response with no `storeSlug`, the
pipeline does not fail at the Fetching stage: `jq -r` prints the literal
string `"null"`, provisioning proceeds, and afterwards the seller's
workspace directory exists and the service is declared. -/
theorem missing_slug_still_provisions :
    (extractSeller respNoSlug).storeSlug = "null" ∧
    ((provision envC tplsC skillsC "s-42" respNoSlug "tok" st0).1.workspaces
        "s-42").isSome = true ∧
    ((provision envC tplsC skillsC "s-42" respNoSlug "tok" st0).1.services
        (serviceName "s-42")).isSome = true := by
  decide

/-- C3 (amended): a registry response missing a required field
(`storeName` or `storeSlug`) is not detected: the field extraction yields
the literal string `"null"`, which flows into the rendered artifacts, and
the pipeline proceeds through every side effect — afterwards the seller's
workspace exists and the service is declared. -/
theorem missing_required_field_not_validated (env : Env) (tpls : Templates)
    (skills : List (String × String)) (sid : String)
    (resp : RegistryResponse) (tok : String) (st : SystemState)
    (h : resp.storeSlug = none) :
    (extractSeller resp).storeSlug = "null" ∧
    ((provision env tpls skills sid resp tok st).1.workspaces sid).isSome =
      true ∧
    ((provision env tpls skills sid resp tok st).1.services
        (serviceName sid)).isSome = true := by
  refine ⟨by simp [extractSeller, jqField, h], ?_, ?_⟩ <;>
    simp [provision, declareService]

/-- C3 witness: the non-validation theorem applied to the concrete
response with no `storeSlug`. -/
theorem missing_required_field_witness :
    (extractSeller respNoSlug).storeSlug = "null" ∧
    ((provision envC tplsC skillsC "s-7" respNoSlug "tok" st0).1.workspaces
        "s-7").isSome = true ∧
    ((provision envC tplsC skillsC "s-7" respNoSlug "tok" st0).1.services
        (serviceName "s-7")).isSome = true :=
  missing_required_field_not_validated envC tplsC skillsC "s-7" respNoSlug
    "tok" st0 rfl

/- ### Claim C6: port propagation to config and status report -/

/-- C6: on every run, the port chosen by the allocator propagates unchanged
to both downstream artifacts: the rendered runtime configuration's gateway
port equals the allocated port, and the status PATCH body carries that same
port as `agentPort`, with `agentStatus = "active"` and the host identifier
as `agentServerId`. -/
theorem allocated_port_propagates (env : Env) (tpls : Templates)
    (skills : List (String × String)) (sid : String)
    (resp : RegistryResponse) (tok : String) (st : SystemState) :
    (provision env tpls skills sid resp tok st).2.configDoc.gatewayPort =
      allocatePort st.busyPorts env.gatewayPortStart ∧
    (provision env tpls skills sid resp tok st).2.statusBody.agentPort =
      (provision env tpls skills sid resp tok st).2.configDoc.gatewayPort ∧
    (provision env tpls skills sid resp tok st).2.statusBody.agentStatus =
      "active" ∧
    (provision env tpls skills sid resp tok st).2.statusBody.agentServerId =
      env.hostname :=
  ⟨rfl, rfl, rfl, rfl⟩

/- ### Claim C7: memory backend selection and storage block -/

/-- C7: the entrypoint selects memory backend `sqlite` when no remote
database connection string is supplied and `postgres` when one is, and the
storage-provider block is appended to the configuration if and only if the
connection string is non-empty. -/
theorem memory_backend_and_storage_block
    (apiKey workspace gatewayPort neonUrl : String) :
    (neonUrl = "" → memoryBackend neonUrl = "sqlite") ∧
    (neonUrl ≠ "" → memoryBackend neonUrl = "postgres") ∧
    ((storageAppend neonUrl).isSome = true ↔ neonUrl ≠ "") ∧
    entrypointConfig apiKey workspace gatewayPort neonUrl =
      entrypointBaseConfig apiKey workspace gatewayPort neonUrl ++
        (storageAppend neonUrl).getD "" := by
  refine ⟨?_, ?_, ?_, rfl⟩
  · intro h
    simp [memoryBackend, memoryBackendStep1, h]
  · intro h
    simp [memoryBackend, memoryBackendStep1, h]
  · by_cases h : neonUrl = "" <;> simp [storageAppend, h]

/-- C7 witness: backend selection and block presence at an empty and a
non-empty connection string. -/
theorem memory_backend_witness :
    memoryBackend "" = "sqlite" ∧
    memoryBackend "postgresql://db.neon.tech/nemu" = "postgres" ∧
    (storageAppend "postgresql://db.neon.tech/nemu").isSome = true ∧
    (storageAppend "").isSome = false :=
  ⟨(memory_backend_and_storage_block "k" "/w" "3000" "").1 rfl,
   (memory_backend_and_storage_block "k" "/w" "3000"
      "postgresql://db.neon.tech/nemu").2.1 (by decide),
   (memory_backend_and_storage_block "k" "/w" "3000"
      "postgresql://db.neon.tech/nemu").2.2.1.mpr (by decide),
   by decide⟩

/- ### Claim C8: deterministic service naming -/

/-- C8: the managed-service name is a pure function of `sellerId` alone and
distinct sellers get distinct names (hence distinct unit paths); writing
the unit for the same name twice redefines the single unit rather than
declaring a second one, and the declared unit is the one retrievable under
the name. -/
theorem service_name_deterministic :
    (∀ a b : String, serviceName a = serviceName b → a = b) ∧
    (∀ a b : String, unitPath (serviceName a) = unitPath (serviceName b) →
      a = b) ∧
    (∀ (st : String → Option String) (name u1 u2 : String),
      declareService (declareService st name u1) name u2 =
        declareService st name u2) ∧
    (∀ (st : String → Option String) (name u : String),
      declareService st name u name = some u) := by
  have hname : ∀ a b : String, serviceName a = serviceName b → a = b := by
    intro a b h
    have hd := congrArg String.data h
    simp only [serviceName, String.data_append] at hd
    exact String.ext (List.append_cancel_left hd)
  refine ⟨hname, ?_, ?_, ?_⟩
  · intro a b h
    apply hname
    have hd := congrArg String.data h
    simp only [unitPath, String.data_append, List.append_assoc] at hd
    have h1 := List.append_cancel_left hd
    have h2 := List.append_cancel_right h1
    exact String.ext h2
  · intro st name u1 u2
    funext m
    by_cases h : m = name <;> simp [declareService, h]
  · intro st name u
    simp [declareService]

/-- C8 witness: naming and unit-file behavior at concrete sellers. -/
theorem service_name_deterministic_witness :
    ("s-1" : String) = "s-1" ∧
    declareService (declareService (fun _ => none) (serviceName "s-42") "u1")
        (serviceName "s-42") "u2" =
      declareService (fun _ => none) (serviceName "s-42") "u2" ∧
    declareService (fun _ => none) (serviceName "s-42") "u2"
        (serviceName "s-42") = some "u2" :=
  ⟨service_name_deterministic.1 "s-1" "s-1" rfl,
   service_name_deterministic.2.2.1 (fun _ => none) (serviceName "s-42")
     "u1" "u2",
   service_name_deterministic.2.2.2 (fun _ => none) (serviceName "s-42") "u2"⟩

/- ### Claim C9: the verification endpoint never compares the token -/

/-- C9: for every GET to the WhatsApp verification endpoint with
`hub.mode = subscribe`, the server echoes `hub.challenge` regardless of
`hub.verify_token`: two requests differing only in the token receive
identical responses — the token is bound by the handler but never
compared. -/
theorem verify_token_never_compared (mode challenge t1 t2 : Option String) :
    whatsappVerifyHandler mode t1 challenge =
      whatsappVerifyHandler mode t2 challenge ∧
    (mode = some "subscribe" →
      whatsappVerifyHandler mode t1 challenge =
        ⟨200, challenge.getD ""⟩) := by
  refine ⟨rfl, ?_⟩
  intro h
  simp [whatsappVerifyHandler, h]

/-- C9 witness: a correct and a wrong token receive the same echoed
challenge. -/
theorem verify_token_never_compared_witness :
    whatsappVerifyHandler (some "subscribe") (some "right-token")
        (some "CHALLENGE-1") =
      whatsappVerifyHandler (some "subscribe") (some "wrong-token")
        (some "CHALLENGE-1") ∧
    whatsappVerifyHandler (some "subscribe") (some "right-token")
        (some "CHALLENGE-1") = ⟨200, "CHALLENGE-1"⟩ :=
  ⟨(verify_token_never_compared (some "subscribe") (some "CHALLENGE-1")
      (some "right-token") (some "wrong-token")).1,
   (verify_token_never_compared (some "subscribe") (some "CHALLENGE-1")
      (some "right-token") (some "wrong-token")).2 rfl⟩

/- ### Claim C10: empty webhook messages are rejected before the LLM -/

/-- C10: for every POST to the buyer webhook whose body has neither a
non-empty `text` nor a non-empty `message` field, the server responds 400
with an error body and does not invoke the language-model API. -/
theorem empty_message_rejected_before_llm (req : WebhookRequest)
    (llmOutcome : Except String String)
    (h1 : truthy req.text = false) (h2 : truthy req.message = false) :
    webhookHandler req llmOutcome =
      (⟨400, "No message text provided"⟩, false) := by
  have hmsg : messageOf req.text req.message = "" := by
    simp [messageOf, h1, h2]
  have hempty : ("" : String).isEmpty = true := rfl
  simp [webhookHandler, hmsg, hempty]

/-- C10 witness: a body with empty `text` and no `message` is rejected with
400 and no LLM call, whatever the LLM would have answered. -/
theorem empty_message_rejected_witness :
    webhookHandler
        { sender := some "6281", senderName := some "Budi",
          text := some "", message := none }
        (Except.ok "halo kak") =
      (⟨400, "No message text provided"⟩, false) :=
  empty_message_rejected_before_llm
    { sender := some "6281", senderName := some "Budi",
      text := some "", message := none }
    (Except.ok "halo kak") (by decide) (by decide)

end ZeroclawNemu
